import Mathlib

/-!
Shallow embedding of the artifact-registry workflow of `wash` (`src/reg.rs`):
artifact classification, digest normalization and verification, the
mutability ("latest"-tag) policy, and the pull and push workflows.

External collaborators (the OCI registry transport, the provider-archive
codec `ProviderArchive::try_load`, the claims extractor
`wascap::wasm::extract_claims`, the reference parser of the
`oci_distribution` crate, and the filesystem) are modelled as oracle
functions supplied through environment records, exactly as the spec treats
them (narrow capability ports). The workflow bodies mirror `handle_pull`
and `handle_push` statement by statement; observable actions (network
calls, file creation, file writes, the classification attempt) are
recorded in an effect trace so that ordering and "no file written" claims
become statements about the trace.
-/

namespace Wash

/-- Raw byte buffers (Rust `Vec<u8>` / `&[u8]`). -/
abbrev Bytes := List Nat

/-- Digest strings are modelled as character lists so that prefix
reasoning is elementary. -/
abbrev Digest := List Char

/-- Media-type and extension constants from `src/reg.rs` lines 13-18. -/
def PROVIDER_ARCHIVE_MEDIA_TYPE : String :=
  "application/vnd.wascc.provider.archive.layer.v1+par"

def PROVIDER_ARCHIVE_CONFIG_MEDIA_TYPE : String :=
  "application/vnd.wascc.provider.archive.config"

def PROVIDER_ARCHIVE_FILE_EXTENSION : String := ".par.gz"

def WASM_MEDIA_TYPE : String :=
  "application/vnd.module.wasm.content.layer.v1+wasm"

def WASM_CONFIG_MEDIA_TYPE : String :=
  "application/vnd.wascc.actor.archive.config"

def WASM_FILE_EXTENSION : String := ".wasm"

/-- The artifact kinds (Rust `enum SupportedArtifacts`). -/
inductive SupportedArtifacts
  | Par
  | Wasm
  deriving DecidableEq, Repr

/-- One layer of an OCI image (crate type `ImageLayer`). -/
structure ImageLayer where
  data : Bytes
  media_type : String
  deriving DecidableEq, Repr

/-- The image package returned by `client.pull` / sent by `client.push`
(crate type `ImageData`): layers plus an optional registry digest. -/
structure ImageData where
  layers : List ImageLayer
  digest : Option Digest
  deriving DecidableEq, Repr

/-- A parsed OCI reference (crate type `Reference`): registry host,
repository path, optional tag. -/
structure Reference where
  registry : String
  repository : String
  tag : Option String
  deriving DecidableEq, Repr

/-- The external collaborators used by classification:
`wascap::wasm::extract_claims` (may return a token, no token, or fail) and
`ProviderArchive::try_load` (may succeed or fail). -/
structure ExternalEnv where
  extractClaims : Bytes → Except String (Option String)
  tryLoad : Bytes → Except String Unit

/-- Embedding of `validate_actor_module` (`src/reg.rs` lines 241-250). -/
def validate_actor_module (env : ExternalEnv) (artifact : Bytes)
    (module : String) : Except String Unit :=
  match env.extractClaims artifact with
  | .ok (some _token) => .ok ()
  | .ok none =>
      .error ("No capabilities discovered in actor module : " ++ module)
  | .error e => .error e

/-- Embedding of `validate_provider_archive` (`src/reg.rs` lines 254-262). -/
def validate_provider_archive (env : ExternalEnv) (artifact : Bytes)
    (archive : String) : Except String Unit :=
  match env.tryLoad artifact with
  | .ok _par => .ok ()
  | .error _e => .error ("Invalid provider archive : " ++ archive)

/-- Embedding of `validate_artifact` (`src/reg.rs` lines 226-237): try the
actor-module path first, fall back to the provider archive, otherwise
report an unsupported artifact. -/
def validate_artifact (env : ExternalEnv) (artifact : Bytes)
    (name : String) : Except String SupportedArtifacts :=
  match validate_actor_module env artifact name with
  | .ok _ => .ok SupportedArtifacts.Wasm
  | .error _ =>
      match validate_provider_archive env artifact name with
      | .ok _ => .ok SupportedArtifacts.Par
      | .error _ => .error "Unsupported artifact type"

/-- The literal characters of the digest scheme marker `sha256:`. -/
def sha256Head : Digest := "sha256:".toList

/-- Normalization of one user-supplied digest string: the `Some` branches
of the `match` at `src/reg.rs` lines 174-178 (`starts_with` test, then
`format!("sha256:\x7b\x7d", d)`). -/
def normalizeDigest (d : Digest) : Digest :=
  if sha256Head.isPrefixOf d then d else sha256Head ++ d

/-- Embedding of the digest-reformatting `match` at `src/reg.rs` lines
174-178, over the optional command-line digest. -/
def reformatDigest : Option Digest → Option Digest
  | some d => if sha256Head.isPrefixOf d then some d
              else some (sha256Head ++ d)
  | none => none

/-- The error message of a failed digest comparison (line 182). -/
def integrityMsg : String :=
  "Image digest did not match provided digest, aborting"

/-- Embedding of the digest-comparison `match` at `src/reg.rs` lines
180-185: expects the already-reformatted digest. -/
def verifyDigest (digest imageDigest : Option Digest) :
    Except String Unit :=
  match digest, imageDigest with
  | some d, some id => if d ≠ id then .error integrityMsg else .ok ()
  | _, _ => .ok ()

/-- The DigestVerifier component of the spec, as realized by the code:
normalization of the caller-supplied digest followed by the comparison. -/
def verify (expected reported : Option Digest) : Except String Unit :=
  verifyDigest (reformatDigest expected) reported

/-- Error kinds of the workflows. The Rust code reports every error as a
boxed message string; the constructors tag each error production site of
`handle_pull` / `handle_push` with the spec\x27s error taxonomy while
carrying the literal message. -/
inductive RegError
  | policyViolation (msg : String)
  | transportFailure (msg : String)
  | integrityMismatch (msg : String)
  | unsupportedArtifact (msg : String)
  | ioFailure (msg : String)
  deriving DecidableEq, Repr

/-- How one workflow invocation terminates: an ordinary `Ok`, an ordinary
`Err` (printed by `main` as `Error: <msg>` with exit code 1), or a Rust
panic (from `.unwrap()`), which aborts the process outside the error
path. -/
inductive Outcome (α : Type)
  | ok (value : α)
  | error (e : RegError)
  | panic (msg : String)
  deriving DecidableEq, Repr

/-- Observable actions of a workflow run, in order of occurrence. -/
inductive Effect
  | netPull
  | netPush (package : ImageData) (config : Bytes)
      (config_media_type : String)
  | classifyAttempt
  | fileCreate (path : String)
  | fileWrite (data : Bytes)
  deriving DecidableEq, Repr

/-- The `pull` subcommand\x27s inputs (struct `PullCommand`). -/
structure PullCommand where
  url : String
  user : Option String
  password : Option String
  output : Option String
  digest : Option Digest
  insecure : Bool
  allow_latest : Bool

/-- The `push` subcommand\x27s inputs (struct `PushCommand`). -/
structure PushCommand where
  url : String
  artifact : String
  user : Option String
  password : Option String
  config : Option String
  insecure : Bool
  allow_latest : Bool

/-- Oracle outcomes of the external calls a pull performs: the reference
parse of `cmd.url`, `Runtime::new()`, `client.pull`, `File::create` and
`write_all`. -/
structure PullEnv where
  oracles : ExternalEnv
  parseRef : Except String Reference
  runtimeNew : Except String Unit
  pullResult : Except String ImageData
  fileCreate : String → Except String Unit
  fileWrite : Except String Unit

/-- Oracle outcomes of the external calls a push performs: the reference
parse, file reads (`File::open` + `read_to_end`), `Runtime::new()` and
`client.push`. -/
structure PushEnv where
  oracles : ExternalEnv
  parseRef : Except String Reference
  readFile : String → Except String Bytes
  runtimeNew : Except String Unit
  pushResult : Except String Unit

/-- The policy-violation message of `handle_pull` (lines 139-143). -/
def pullLatestMsg : String :=
  "Pulling artifacts with tag \x27latest\x27 is prohibited. This can be overriden with a flag"

/-- The policy-violation message of `handle_push` (lines 267-272). -/
def pushLatestMsg : String :=
  "Pushing artifacts with tag \x27latest\x27 is prohibited. This can be overriden with a flag"

/-- Embedding of `handle_pull` (`src/reg.rs` lines 135-222). Every step
follows the source in order: reference parse (`.unwrap()` panics on
failure), the latest-tag guard, runtime creation, the network pull, digest
reformatting and comparison, layer concatenation, classification, output
path computation, file creation and the final write. The second component
is the trace of observable effects performed before termination. -/
def handle_pull (env : PullEnv) (cmd : PullCommand) :
    Outcome Unit × List Effect :=
  match env.parseRef with
  | .error e => (.panic e, [])
  | .ok image =>
    if image.tag.getD "latest" = "latest" ∧ cmd.allow_latest = false then
      (.error (.policyViolation pullLatestMsg), [])
    else
      match env.runtimeNew with
      | .error e => (.error (.ioFailure e), [])
      | .ok _ =>
        match env.pullResult with
        | .error e => (.error (.transportFailure e), [Effect.netPull])
        | .ok image_data =>
          let digest := reformatDigest cmd.digest
          match verifyDigest digest image_data.digest with
          | .error e => (.error (.integrityMismatch e), [Effect.netPull])
          | .ok _ =>
            let artifact := (image_data.layers.map ImageLayer.data).flatten
            match validate_artifact env.oracles artifact image.repository with
            | .error e =>
                (.error (.unsupportedArtifact e),
                 [Effect.netPull, Effect.classifyAttempt])
            | .ok kind =>
              let file_extension :=
                match kind with
                | SupportedArtifacts.Par => PROVIDER_ARCHIVE_FILE_EXTENSION
                | SupportedArtifacts.Wasm => WASM_FILE_EXTENSION
              let outfile := cmd.output.getD
                (((image.repository.splitOn "/").getLastD "") ++
                  file_extension)
              match env.fileCreate outfile with
              | .error e =>
                  (.error (.ioFailure e),
                   [Effect.netPull, Effect.classifyAttempt])
              | .ok _ =>
                match env.fileWrite with
                | .error e =>
                    (.error (.ioFailure e),
                     [Effect.netPull, Effect.classifyAttempt,
                      Effect.fileCreate outfile])
                | .ok _ =>
                    (.ok (),
                     [Effect.netPull, Effect.classifyAttempt,
                      Effect.fileCreate outfile, Effect.fileWrite artifact])

/-- The fixed (artifact media type, config media type) pairing chosen by
classification on push (`src/reg.rs` lines 293-300). -/
def media_types : SupportedArtifacts → String × String
  | SupportedArtifacts.Wasm => (WASM_MEDIA_TYPE, WASM_CONFIG_MEDIA_TYPE)
  | SupportedArtifacts.Par =>
      (PROVIDER_ARCHIVE_MEDIA_TYPE, PROVIDER_ARCHIVE_CONFIG_MEDIA_TYPE)

/-- The default configuration payload `b"\x7b\x7d"` sent when no config
file is given (line 283). -/
def emptyConfigBytes : Bytes := "\x7b\x7d".toList.map Char.toNat

/-- Embedding of `handle_push` (`src/reg.rs` lines 264-348): reference
parse (`.unwrap()` panics on failure), tag resolution (`.unwrap()` panics
on an absent tag), the latest-tag guard, config loading (defaulting to
`\x7b\x7d`), artifact loading, classification into the media-type pairing,
package construction with a single layer and no digest, runtime creation
and the network push. -/
def handle_push (env : PushEnv) (cmd : PushCommand) :
    Outcome Unit × List Effect :=
  match env.parseRef with
  | .error e => (.panic e, [])
  | .ok image =>
    match image.tag with
    | none => (.panic "called Option::unwrap on a None value", [])
    | some tag =>
      if tag = "latest" ∧ cmd.allow_latest = false then
        (.error (.policyViolation pushLatestMsg), [])
      else
        match (match cmd.config with
               | some config_file => env.readFile config_file
               | none => Except.ok emptyConfigBytes) with
        | .error e => (.error (.ioFailure e), [])
        | .ok config_buf =>
          match env.readFile cmd.artifact with
          | .error e => (.error (.ioFailure e), [])
          | .ok artifact_buf =>
            match validate_artifact env.oracles artifact_buf cmd.artifact with
            | .error e =>
                (.error (.unsupportedArtifact e), [Effect.classifyAttempt])
            | .ok kind =>
              let mts := media_types kind
              let image_data : ImageData :=
                { layers := [{ data := artifact_buf, media_type := mts.1 }],
                  digest := none }
              match env.runtimeNew with
              | .error e => (.error (.ioFailure e), [Effect.classifyAttempt])
              | .ok _ =>
                match env.pushResult with
                | .error e =>
                    (.error (.transportFailure e),
                     [Effect.classifyAttempt,
                      Effect.netPush image_data config_buf mts.2])
                | .ok _ =>
                    (.ok (),
                     [Effect.classifyAttempt,
                      Effect.netPush image_data config_buf mts.2])

/-! Helper lemmas shared by several verification theorems. -/

/-- Reformatting the optional digest is pointwise normalization. -/
theorem reformatDigest_eq_map (d : Option Digest) :
    reformatDigest d = d.map normalizeDigest := by
  cases d with
  | none => rfl
  | some d =>
      by_cases h : sha256Head.isPrefixOf d <;>
        simp [reformatDigest, normalizeDigest, h]

/-- Appending the scheme marker always yields a marked digest. -/
theorem sha256Head_isPrefixOf_append (d : Digest) :
    sha256Head.isPrefixOf (sha256Head ++ d) = true := by
  simp [List.isPrefixOf_iff_prefix]

/-! Claim theorems. -/

/-- C8: digest normalization prefixes `sha256:` to any digest string not
already starting with it, leaves an already-prefixed string unchanged,
and is idempotent. -/
theorem C8_normalize_idempotent (d : Digest) :
    (sha256Head.isPrefixOf d = true → normalizeDigest d = d)
  ∧ (sha256Head.isPrefixOf d = false →
      normalizeDigest d = sha256Head ++ d)
  ∧ normalizeDigest (normalizeDigest d) = normalizeDigest d := by
  refine ⟨fun h => by simp [normalizeDigest, h],
          fun h => by simp [normalizeDigest, h], ?_⟩
  by_cases h : sha256Head.isPrefixOf d
  · simp [normalizeDigest, h]
  · simp only [normalizeDigest, h]
    simp [sha256Head_isPrefixOf_append]

/-- Witness for C8 at the concrete digest string `ab`. -/
theorem C8_normalize_idempotent_witness :
    normalizeDigest "ab".toList = sha256Head ++ "ab".toList ∧
    normalizeDigest (normalizeDigest "ab".toList) =
      normalizeDigest "ab".toList :=
  ⟨(C8_normalize_idempotent "ab".toList).2.1 (by decide),
   (C8_normalize_idempotent "ab".toList).2.2⟩

/-- C1: classification returns `Wasm` exactly when claims extraction
succeeds with a token; when it does not (no token, or an extraction
error), classification returns `Par` exactly when the provider-archive
parse succeeds; when both attempts fail the result is the unsupported
artifact error. A buffer satisfying both formats is classified `Wasm`
because the WASM attempt is tried first. -/
theorem C1_classifier_dispatch (env : ExternalEnv) (a : Bytes)
    (name : String) :
    (validate_artifact env a name = .ok SupportedArtifacts.Wasm ↔
      ∃ tok, env.extractClaims a = .ok (some tok))
  ∧ ((¬ ∃ tok, env.extractClaims a = .ok (some tok)) →
      (validate_artifact env a name = .ok SupportedArtifacts.Par ↔
        env.tryLoad a = .ok ()))
  ∧ ((¬ ∃ tok, env.extractClaims a = .ok (some tok)) →
      env.tryLoad a ≠ .ok () →
      validate_artifact env a name = .error "Unsupported artifact type") := by
  rcases hc : env.extractClaims a with e | o
  · rcases ht : env.tryLoad a with e2 | u
    · simp [validate_artifact, validate_actor_module,
        validate_provider_archive, hc, ht]
    · simp [validate_artifact, validate_actor_module,
        validate_provider_archive, hc, ht]
  · cases o with
    | none =>
        rcases ht : env.tryLoad a with e2 | u
        · simp [validate_artifact, validate_actor_module,
            validate_provider_archive, hc, ht]
        · simp [validate_artifact, validate_actor_module,
            validate_provider_archive, hc, ht]
    | some tok =>
        simp [validate_artifact, validate_actor_module,
          validate_provider_archive, hc]

/-- Environment in which both the claims extractor and the archive codec
accept every buffer. -/
def externBoth : ExternalEnv :=
  { extractClaims := fun _ => .ok (some "token"),
    tryLoad := fun _ => .ok () }

/-- Environment in which both the claims extractor and the archive codec
reject every buffer. -/
def externNeither : ExternalEnv :=
  { extractClaims := fun _ => .error "no claims",
    tryLoad := fun _ => .error "not an archive" }

/-- Witness for C1: a buffer accepted by both formats classifies as
`Wasm`; a buffer accepted by neither yields the unsupported error. -/
theorem C1_classifier_dispatch_witness :
    validate_artifact externBoth [0] "n" = .ok SupportedArtifacts.Wasm ∧
    validate_artifact externNeither [0] "n" =
      .error "Unsupported artifact type" :=
  ⟨(C1_classifier_dispatch externBoth [0] "n").1.mpr ⟨"token", rfl⟩,
   (C1_classifier_dispatch externNeither [0] "n").2.2
     (by simp [externNeither]) (by simp [externNeither])⟩

/-- C2 counterexample: with an expected digest supplied but no digest
reported by the registry, `verify` passes even though the normalized
expected digest is not equal to the (absent) reported digest, contrary to
the claim\x27s "fails exactly when not string-equal". -/
theorem C2_counterexample :
    verify (some "ab".toList) none = .ok () ∧
    reformatDigest (some "ab".toList) ≠ (none : Option Digest) := by
  refine ⟨rfl, ?_⟩
  simp [reformatDigest_eq_map]

/-- C2 (amended): `verify` passes when no expected digest is supplied,
for any reported digest; when an expected digest is supplied it fails
exactly when the registry reports a digest and the normalized expected
digest is not string-equal to it. -/
theorem C2_verify_characterization (expected reported : Option Digest) :
    verify expected reported = .error integrityMsg ↔
      ∃ e r, expected = some e ∧ reported = some r ∧
        normalizeDigest e ≠ r := by
  cases expected with
  | none => cases reported <;> simp [verify, reformatDigest, verifyDigest]
  | some e =>
      cases reported with
      | none => simp [verify, reformatDigest_eq_map, verifyDigest]
      | some r =>
          by_cases h : normalizeDigest e = r
          · simp [verify, reformatDigest_eq_map, verifyDigest, h]
          · simp [verify, reformatDigest_eq_map, verifyDigest, h]

/-- Master case analysis for `handle_pull`: the integrity-mismatch error
can only terminate a run whose whole trace is the network pull; any run
that reaches classification had a successfully pulled image whose digest
comparison passed; and the policy-violation error only arises from the
latest-tag guard, with an empty trace. -/
theorem handle_pull_master (env : PullEnv) (cmd : PullCommand) :
    (∀ m, (handle_pull env cmd).1 = .error (.integrityMismatch m) →
        (handle_pull env cmd).2 = [Effect.netPull])
  ∧ (Effect.classifyAttempt ∈ (handle_pull env cmd).2 →
      ∃ idata, env.pullResult = .ok idata ∧
        verifyDigest (reformatDigest cmd.digest) idata.digest = .ok ())
  ∧ (∀ m, (handle_pull env cmd).1 = .error (.policyViolation m) →
      ∃ img, env.parseRef = .ok img ∧
        (img.tag.getD "latest" = "latest" ∧ cmd.allow_latest = false) ∧
        m = pullLatestMsg ∧ (handle_pull env cmd).2 = []) := by
  rcases hpr : env.parseRef with e0 | img
  · refine ⟨?_, ?_, ?_⟩ <;> simp [handle_pull, hpr]
  · by_cases hcond : img.tag.getD "latest" = "latest" ∧
      cmd.allow_latest = false
    · refine ⟨?_, ?_, ?_⟩
      · simp [handle_pull, hpr, hcond]
      · simp [handle_pull, hpr, hcond]
      · intro m hm
        simp [handle_pull, hpr, hcond] at hm
        exact ⟨img, rfl, hcond, hm.symm, by simp [handle_pull, hpr, hcond]⟩
    · rcases hrt : env.runtimeNew with e1 | ⟨⟩
      · refine ⟨?_, ?_, ?_⟩ <;> simp [handle_pull, hpr, hcond, hrt]
      · rcases hplr : env.pullResult with e2 | idata
        · refine ⟨?_, ?_, ?_⟩ <;> simp [handle_pull, hpr, hcond, hrt, hplr]
        · rcases hver : verifyDigest (reformatDigest cmd.digest)
            idata.digest with e3 | ⟨⟩
          · refine ⟨?_, ?_, ?_⟩ <;>
              simp [handle_pull, hpr, hcond, hrt, hplr, hver]
          · refine ⟨?_, ?_, ?_⟩
            · intro m hm
              exfalso
              simp [handle_pull, hpr, hcond, hrt, hplr, hver] at hm
              repeat' split at hm
              all_goals simp_all
            · intro _
              exact ⟨idata, rfl, hver⟩
            · intro m hm
              exfalso
              simp [handle_pull, hpr, hcond, hrt, hplr, hver] at hm
              repeat' split at hm
              all_goals simp_all

/-- C3: a reference is rejected with the policy-violation error exactly
when the resolved tag (explicit, or defaulted to `latest` on pull when
absent) is `latest` and the allow-latest flag is unset; any other tag
passes the guard; a rejection produces an empty effect trace, so it
happens before any network I/O. -/
theorem C3_latest_policy (penv : PullEnv) (pcmd : PullCommand)
    (qenv : PushEnv) (qcmd : PushCommand) (img img2 : Reference)
    (t : String)
    (hp : penv.parseRef = .ok img)
    (hq : qenv.parseRef = .ok img2)
    (ht : img2.tag = some t) :
    ((handle_pull penv pcmd).1 =
        .error (.policyViolation pullLatestMsg) ↔
      (img.tag.getD "latest" = "latest" ∧ pcmd.allow_latest = false))
  ∧ ((img.tag.getD "latest" = "latest" ∧ pcmd.allow_latest = false) →
      (handle_pull penv pcmd).2 = [])
  ∧ ((handle_push qenv qcmd).1 =
        .error (.policyViolation pushLatestMsg) ↔
      (t = "latest" ∧ qcmd.allow_latest = false))
  ∧ ((t = "latest" ∧ qcmd.allow_latest = false) →
      (handle_push qenv qcmd).2 = []) := by
  refine ⟨⟨?_, ?_⟩, ?_, ⟨?_, ?_⟩, ?_⟩
  · intro h
    by_contra hcond
    revert h
    simp only [handle_pull, hp, if_neg hcond]
    repeat' split
    all_goals simp
  · rintro ⟨h1, h2⟩
    simp [handle_pull, hp, h1, h2]
  · rintro ⟨h1, h2⟩
    simp [handle_pull, hp, h1, h2]
  · intro h
    by_contra hcond
    revert h
    simp only [handle_push, hq, ht, if_neg hcond]
    repeat' split
    all_goals simp
  · rintro ⟨h1, h2⟩
    simp [handle_push, hq, ht, h1, h2]
  · rintro ⟨h1, h2⟩
    simp [handle_push, hq, ht, h1, h2]

/-- C4: whenever a pull terminates with the integrity-mismatch error, the
effect trace holds no classification attempt, no file creation and no
file write; and whenever classification was attempted at all, the digest
comparison had already passed on the pulled image. -/
theorem C4_integrity_checked_first (env : PullEnv) (cmd : PullCommand) :
    ((handle_pull env cmd).1 =
        .error (.integrityMismatch integrityMsg) →
      Effect.classifyAttempt ∉ (handle_pull env cmd).2 ∧
      (∀ p, Effect.fileCreate p ∉ (handle_pull env cmd).2) ∧
      (∀ b, Effect.fileWrite b ∉ (handle_pull env cmd).2))
  ∧ (Effect.classifyAttempt ∈ (handle_pull env cmd).2 →
      ∃ idata, env.pullResult = .ok idata ∧
        verifyDigest (reformatDigest cmd.digest) idata.digest =
          .ok ()) := by
  constructor
  · intro h
    have htr := (handle_pull_master env cmd).1 integrityMsg h
    rw [htr]
    simp
  · exact (handle_pull_master env cmd).2.1

/-- C5: on a reference string whose parse fails, both workflows terminate
by panic (the `.unwrap()` on the parse result) with an empty effect
trace: no network call is made, but the termination is a panic, never the
ordinary error outcome that `main` converts to a single human-readable
message with exit code 1. -/
theorem C5_malformed_reference_panics (penv : PullEnv)
    (pcmd : PullCommand) (qenv : PushEnv) (qcmd : PushCommand)
    (e0 e1 : String)
    (hp : penv.parseRef = .error e0)
    (hq : qenv.parseRef = .error e1) :
    handle_pull penv pcmd = (.panic e0, [])
  ∧ (∀ err, (handle_pull penv pcmd).1 ≠ .error err)
  ∧ handle_push qenv qcmd = (.panic e1, [])
  ∧ (∀ err, (handle_push qenv qcmd).1 ≠ .error err) := by
  refine ⟨by simp [handle_pull, hp], ?_, by simp [handle_push, hq], ?_⟩
  · intro err
    simp [handle_pull, hp]
  · intro err
    simp [handle_push, hq]

/-- C6: on push an absent tag panics (the `.unwrap()` on `image.tag()`),
an unrecoverable outcome distinct from the policy violation; on pull an
absent tag resolves to `latest` and is handled by the mutability policy
rule (rejected without the override flag, never a policy violation with
it). -/
theorem C6_absent_tag_asymmetry (qenv : PushEnv) (qcmd : PushCommand)
    (penv : PullEnv) (pcmd : PullCommand) (img img2 : Reference)
    (hq : qenv.parseRef = .ok img2) (ht2 : img2.tag = none)
    (hp : penv.parseRef = .ok img) (ht : img.tag = none) :
    (∃ m, (handle_push qenv qcmd).1 = .panic m)
  ∧ (∀ m, (handle_push qenv qcmd).1 ≠ .error (.policyViolation m))
  ∧ (pcmd.allow_latest = false →
      (handle_pull penv pcmd).1 = .error (.policyViolation pullLatestMsg))
  ∧ (pcmd.allow_latest = true →
      ∀ m, (handle_pull penv pcmd).1 ≠ .error (.policyViolation m)) := by
  refine ⟨?_, ?_, ?_, ?_⟩
  · exact ⟨"called Option::unwrap on a None value",
      by simp [handle_push, hq, ht2]⟩
  · intro m
    simp [handle_push, hq, ht2]
  · intro hal
    simp [handle_pull, hp, ht, hal]
  · intro hal m hcontra
    obtain ⟨img3, _, hcond3, _, _⟩ :=
      (handle_pull_master penv pcmd).2.2 m hcontra
    rw [hal] at hcond3
    simp at hcond3

/-- C7: for every push whose artifact classifies successfully (with or
without a config file), the uploaded package holds exactly one layer
whose data is the artifact bytes and whose media type is the fixed
pairing of the classified kind, the package digest field is empty, and
the config media type is the matching fixed pairing; the config bytes
sent are whatever the config load produced, and with no config file
they are exactly the two bytes of the empty JSON object. -/
theorem C7_push_package (env : PushEnv) (cmd : PushCommand)
    (img : Reference) (t : String) (buf cbuf : Bytes)
    (kind : SupportedArtifacts)
    (hq : env.parseRef = .ok img)
    (ht : img.tag = some t)
    (hpol : ¬(t = "latest" ∧ cmd.allow_latest = false))
    (hcfg : (match cmd.config with
             | some config_file => env.readFile config_file
             | none => Except.ok emptyConfigBytes) = .ok cbuf)
    (ha : env.readFile cmd.artifact = .ok buf)
    (hv : validate_artifact env.oracles buf cmd.artifact = .ok kind)
    (hrt : env.runtimeNew = .ok ()) :
    (handle_push env cmd).2 =
      [Effect.classifyAttempt,
       Effect.netPush
         { layers := [{ data := buf,
                        media_type := (media_types kind).1 }],
           digest := none }
         cbuf ((media_types kind).2)]
  ∧ (cmd.config = none → cbuf = emptyConfigBytes)
  ∧ emptyConfigBytes = [123, 125] := by
  refine ⟨?_, ?_, by decide⟩
  · rcases hps : env.pushResult with e | ⟨⟩ <;>
      simp [handle_push, hq, ht, hpol, hcfg, ha, hv, hrt, hps]
  · intro hc
    rw [hc] at hcfg
    simpa using hcfg.symm

/-- C9: when the caller supplies an expected digest but the registry
reports none, the digest comparison passes silently and the pull
proceeds through classification to creating and writing the output
file. -/
theorem C9_skipped_integrity (env : PullEnv) (cmd : PullCommand)
    (img : Reference) (idata : ImageData) (e : Digest)
    (kind : SupportedArtifacts)
    (hp : env.parseRef = .ok img)
    (hpol : ¬(img.tag.getD "latest" = "latest" ∧
      cmd.allow_latest = false))
    (hrt : env.runtimeNew = .ok ())
    (hpl : env.pullResult = .ok idata)
    (hrep : idata.digest = none)
    (hd : cmd.digest = some e)
    (hv : validate_artifact env.oracles
        ((idata.layers.map ImageLayer.data).flatten) img.repository =
      .ok kind)
    (hfc : ∀ p, env.fileCreate p = .ok ())
    (hfw : env.fileWrite = .ok ()) :
    verify cmd.digest idata.digest = .ok ()
  ∧ (handle_pull env cmd).1 = .ok ()
  ∧ Effect.classifyAttempt ∈ (handle_pull env cmd).2
  ∧ (∃ p, Effect.fileCreate p ∈ (handle_pull env cmd).2)
  ∧ (∃ b, Effect.fileWrite b ∈ (handle_pull env cmd).2) := by
  have hverify : verifyDigest (reformatDigest cmd.digest) idata.digest =
      .ok () := by
    simp [hd, hrep, reformatDigest_eq_map, verifyDigest]
  have hrun : handle_pull env cmd =
      (.ok (), [Effect.netPull, Effect.classifyAttempt,
        Effect.fileCreate (cmd.output.getD
          ((img.repository.splitOn "/").getLastD "" ++
            (match kind with
             | SupportedArtifacts.Par => PROVIDER_ARCHIVE_FILE_EXTENSION
             | SupportedArtifacts.Wasm => WASM_FILE_EXTENSION))),
        Effect.fileWrite ((idata.layers.map ImageLayer.data).flatten)]) := by
    simp [handle_pull, hp, hpol, hrt, hpl, hverify, hv, hfc, hfw]
    cases kind <;> rfl
  refine ⟨hverify, ?_, ?_, ?_, ?_⟩ <;> rw [hrun] <;> simp

/-- C10: when the pulled buffer classifies as neither kind (and the
digest comparison passed), the pull fails with the unsupported-artifact
error after the classification attempt, and no output file is created or
written, whatever the `--output` flag was. -/
theorem C10_unsupported_no_file (env : PullEnv) (cmd : PullCommand)
    (img : Reference) (idata : ImageData)
    (hp : env.parseRef = .ok img)
    (hpol : ¬(img.tag.getD "latest" = "latest" ∧
      cmd.allow_latest = false))
    (hrt : env.runtimeNew = .ok ())
    (hpl : env.pullResult = .ok idata)
    (hver : verifyDigest (reformatDigest cmd.digest) idata.digest =
      .ok ())
    (hv : validate_artifact env.oracles
        ((idata.layers.map ImageLayer.data).flatten) img.repository =
      .error "Unsupported artifact type") :
    (handle_pull env cmd).1 =
      .error (.unsupportedArtifact "Unsupported artifact type")
  ∧ Effect.classifyAttempt ∈ (handle_pull env cmd).2
  ∧ (∀ p, Effect.fileCreate p ∉ (handle_pull env cmd).2)
  ∧ (∀ b, Effect.fileWrite b ∉ (handle_pull env cmd).2) := by
  have hrun : handle_pull env cmd =
      (.error (.unsupportedArtifact "Unsupported artifact type"),
       [Effect.netPull, Effect.classifyAttempt]) := by
    simp [handle_pull, hp, hpol, hrt, hpl, hver, hv]
  refine ⟨?_, ?_, ?_, ?_⟩ <;> rw [hrun] <;> simp

/-! Concrete inputs used by the witness theorems. -/

/-- A concrete reference with an explicit non-latest tag. -/
def refV1 : Reference :=
  { registry := "registry.example.com", repository := "ns/foo",
    tag := some "v1" }

/-- A concrete reference with the explicit tag `latest`. -/
def refLatest : Reference :=
  { registry := "registry.example.com", repository := "ns/foo",
    tag := some "latest" }

/-- A concrete reference with no tag at all. -/
def refNoTag : Reference :=
  { registry := "registry.example.com", repository := "ns/foo",
    tag := none }

/-- A pulled image with one layer and no reported digest. -/
def imageNoDigest : ImageData :=
  { layers := [{ data := [0, 1], media_type := WASM_MEDIA_TYPE }],
    digest := none }

/-- A pulled image with one layer whose reported digest is
`sha256:bb`. -/
def imageDigestB : ImageData :=
  { layers := [{ data := [0, 1], media_type := WASM_MEDIA_TYPE }],
    digest := some "sha256:bb".toList }

/-- A concrete pull environment in which the runtime and all file
operations succeed. -/
def pullEnvOf (ext : ExternalEnv) (r : Except String Reference)
    (pr : Except String ImageData) : PullEnv :=
  { oracles := ext, parseRef := r, runtimeNew := .ok (),
    pullResult := pr, fileCreate := fun _ => .ok (),
    fileWrite := .ok () }

/-- A concrete push environment in which file reads, the runtime and the
upload succeed. -/
def pushEnvOf (ext : ExternalEnv) (r : Except String Reference) :
    PushEnv :=
  { oracles := ext, parseRef := r, readFile := fun _ => .ok [0, 1],
    runtimeNew := .ok (), pushResult := .ok () }

/-- A concrete pull command: no flags set. -/
def pullCmd0 : PullCommand :=
  { url := "registry.example.com/ns/foo:v1", user := none,
    password := none, output := none, digest := none,
    insecure := false, allow_latest := false }

/-- A concrete push command: no flags set. -/
def pushCmd0 : PushCommand :=
  { url := "registry.example.com/ns/foo:v1", artifact := "foo.wasm",
    user := none, password := none, config := none,
    insecure := false, allow_latest := false }

/-- Witness for C3: a pull of tag `latest` without the override is
rejected with an empty trace; a push of tag `v1` is not a policy
violation. -/
theorem C3_latest_policy_witness :
    (handle_pull (pullEnvOf externBoth (.ok refLatest)
        (.ok imageNoDigest)) pullCmd0).2 = [] ∧
    (handle_push (pushEnvOf externBoth (.ok refV1)) pushCmd0).1 ≠
      .error (.policyViolation pushLatestMsg) := by
  constructor
  · exact (C3_latest_policy
      (pullEnvOf externBoth (.ok refLatest) (.ok imageNoDigest)) pullCmd0
      (pushEnvOf externBoth (.ok refV1)) pushCmd0 refLatest refV1 "v1"
      rfl rfl rfl).2.1 ⟨rfl, rfl⟩
  · intro hcontra
    have hc := (C3_latest_policy
      (pullEnvOf externBoth (.ok refLatest) (.ok imageNoDigest)) pullCmd0
      (pushEnvOf externBoth (.ok refV1)) pushCmd0 refLatest refV1 "v1"
      rfl rfl rfl).2.2.1.mp hcontra
    simp at hc

/-- Witness for C4: a pull whose expected digest `aa` mismatches the
reported digest `sha256:bb` never reaches classification. -/
theorem C4_integrity_checked_first_witness :
    Effect.classifyAttempt ∉
      (handle_pull (pullEnvOf externBoth (.ok refV1) (.ok imageDigestB))
        { pullCmd0 with digest := some "aa".toList }).2 :=
  ((C4_integrity_checked_first
      (pullEnvOf externBoth (.ok refV1) (.ok imageDigestB))
      { pullCmd0 with digest := some "aa".toList }).1 (by decide)).1

/-- Witness for C5: with a failing reference parse, both workflows
terminate by panic with an empty trace. -/
theorem C5_malformed_reference_panics_witness :
    handle_pull (pullEnvOf externBoth (.error "malformed reference")
        (.ok imageNoDigest)) pullCmd0 =
      (.panic "malformed reference", []) ∧
    handle_push (pushEnvOf externBoth (.error "malformed reference"))
        pushCmd0 =
      (.panic "malformed reference", []) :=
  ⟨(C5_malformed_reference_panics _ pullCmd0
      (pushEnvOf externBoth (.error "malformed reference")) pushCmd0
      "malformed reference" "malformed reference" rfl rfl).1,
   (C5_malformed_reference_panics
      (pullEnvOf externBoth (.error "malformed reference")
        (.ok imageNoDigest)) pullCmd0 _ pushCmd0
      "malformed reference" "malformed reference" rfl rfl).2.2.1⟩

/-- Witness for C6: pushing to an untagged reference panics, and pulling
from an untagged reference without the override is a policy
violation. -/
theorem C6_absent_tag_asymmetry_witness :
    (∃ m, (handle_push (pushEnvOf externBoth (.ok refNoTag))
        pushCmd0).1 = .panic m) ∧
    (handle_pull (pullEnvOf externBoth (.ok refNoTag)
        (.ok imageNoDigest)) pullCmd0).1 =
      .error (.policyViolation pullLatestMsg) :=
  ⟨(C6_absent_tag_asymmetry (pushEnvOf externBoth (.ok refNoTag))
      pushCmd0 (pullEnvOf externBoth (.ok refNoTag) (.ok imageNoDigest))
      pullCmd0 refNoTag refNoTag rfl rfl rfl rfl).1,
   (C6_absent_tag_asymmetry (pushEnvOf externBoth (.ok refNoTag))
      pushCmd0 (pullEnvOf externBoth (.ok refNoTag) (.ok imageNoDigest))
      pullCmd0 refNoTag refNoTag rfl rfl rfl rfl).2.2.1 rfl⟩

/-- Witness for C7: a concrete push of a claims-bearing artifact with a
config file uploads one Wasm-typed layer with that file\x27s bytes as
config, and the same push with no config file sends the empty JSON
config. -/
theorem C7_push_package_witness :
    (handle_push (pushEnvOf externBoth (.ok refV1))
        { pushCmd0 with config := some "cfg.json" }).2 =
      [Effect.classifyAttempt,
       Effect.netPush
         { layers := [{ data := [0, 1],
                        media_type :=
                          (media_types SupportedArtifacts.Wasm).1 }],
           digest := none }
         [0, 1] ((media_types SupportedArtifacts.Wasm).2)] ∧
    (handle_push (pushEnvOf externBoth (.ok refV1)) pushCmd0).2 =
      [Effect.classifyAttempt,
       Effect.netPush
         { layers := [{ data := [0, 1],
                        media_type :=
                          (media_types SupportedArtifacts.Wasm).1 }],
           digest := none }
         emptyConfigBytes ((media_types SupportedArtifacts.Wasm).2)] :=
  ⟨(C7_push_package (pushEnvOf externBoth (.ok refV1))
      { pushCmd0 with config := some "cfg.json" } refV1 "v1" [0, 1]
      [0, 1] SupportedArtifacts.Wasm rfl rfl (by decide) rfl rfl rfl
      rfl).1,
   (C7_push_package (pushEnvOf externBoth (.ok refV1)) pushCmd0 refV1
      "v1" [0, 1] emptyConfigBytes SupportedArtifacts.Wasm rfl rfl
      (by decide) rfl rfl rfl rfl).1⟩

/-- Witness for C9: a pull with expected digest `aa` against an image
reporting no digest succeeds. -/
theorem C9_skipped_integrity_witness :
    verify (some "aa".toList) (none : Option Digest) = .ok () ∧
    (handle_pull (pullEnvOf externBoth (.ok refV1) (.ok imageNoDigest))
        { pullCmd0 with digest := some "aa".toList }).1 = .ok () :=
  ⟨(C9_skipped_integrity
      (pullEnvOf externBoth (.ok refV1) (.ok imageNoDigest))
      { pullCmd0 with digest := some "aa".toList } refV1 imageNoDigest
      "aa".toList SupportedArtifacts.Wasm rfl (by decide) rfl rfl rfl rfl
      rfl (fun _ => rfl) rfl).1,
   (C9_skipped_integrity
      (pullEnvOf externBoth (.ok refV1) (.ok imageNoDigest))
      { pullCmd0 with digest := some "aa".toList } refV1 imageNoDigest
      "aa".toList SupportedArtifacts.Wasm rfl (by decide) rfl rfl rfl rfl
      rfl (fun _ => rfl) rfl).2.1⟩

/-- Witness for C10: a pull of an unclassifiable buffer with an explicit
`--output` path fails and creates no file. -/
theorem C10_unsupported_no_file_witness :
    (handle_pull (pullEnvOf externNeither (.ok refV1)
        (.ok imageNoDigest))
      { pullCmd0 with output := some "out.bin" }).1 =
      .error (.unsupportedArtifact "Unsupported artifact type") ∧
    (∀ p, Effect.fileCreate p ∉
      (handle_pull (pullEnvOf externNeither (.ok refV1)
          (.ok imageNoDigest))
        { pullCmd0 with output := some "out.bin" }).2) :=
  ⟨(C10_unsupported_no_file
      (pullEnvOf externNeither (.ok refV1) (.ok imageNoDigest))
      { pullCmd0 with output := some "out.bin" } refV1 imageNoDigest
      rfl (by decide) rfl rfl rfl rfl).1,
   (C10_unsupported_no_file
      (pullEnvOf externNeither (.ok refV1) (.ok imageNoDigest))
      { pullCmd0 with output := some "out.bin" } refV1 imageNoDigest
      rfl (by decide) rfl rfl rfl rfl).2.2.1⟩

end Wash
